import Mathlib

/-!
Verification development for the knugget backend (TypeScript sources).

The definitions below are a shallow embedding of the code:

* the relational store (Prisma over PostgreSQL) is modelled as explicit
  in-memory lists of rows threaded through each operation;
* asynchronous service calls that can fail are modelled with `Except`;
* the outcome of the external AI provider call is passed in as an explicit
  parameter, since the orchestrator treats the client as a black box;
* string row ids (cuid) are modelled as `Nat` drawn from a fresh counter.

Each service method is translated statement by statement from
`src/services/summary.ts`, `src/services/auth.ts` and `src/services/openai.ts`.
-/

/-- `AppError` from `src/middleware/errorHandler.ts`: message plus HTTP status. -/
structure AppError where
  message : String
  statusCode : Nat
deriving Repr, DecidableEq

deriving instance DecidableEq for Except

/-- `UserPlan` enum from the Prisma schema. -/
inductive UserPlan where
  | FREE
  | PREMIUM
deriving Repr, DecidableEq

/-- `SummaryStatus` enum from the Prisma schema. -/
inductive SummaryStatus where
  | PENDING
  | PROCESSING
  | COMPLETED
  | FAILED
deriving Repr, DecidableEq

/-- `TranscriptSegment` interface from `src/types` (routes/user.ts). -/
structure TranscriptSegment where
  timestamp : String
  text : String
deriving Repr, DecidableEq

/-- `VideoMetadata` interface from `src/types` (routes/user.ts). -/
structure VideoMetadata where
  videoId : String
  title : String
  channelName : String
  duration : Option String
  url : String
  thumbnailUrl : Option String
deriving Repr, DecidableEq

/-- A row of the `summaries` table (Prisma model `Summary`). -/
structure Summary where
  id : Nat
  title : String
  keyPoints : List String
  fullSummary : String
  tags : List String
  status : SummaryStatus
  videoId : String
  videoTitle : String
  channelName : String
  videoDuration : Option String
  videoUrl : String
  thumbnailUrl : Option String
  transcript : Option (List TranscriptSegment)
  transcriptText : Option String
  userId : Nat
  createdAt : Nat
deriving Repr, DecidableEq

/-- A row of the `users` table (Prisma model `User`). -/
structure User where
  id : Nat
  email : String
  name : Option String
  avatar : Option String
  plan : UserPlan
  credits : Int
  supabaseId : Option String
  emailVerified : Bool
  lastLoginAt : Option Nat
deriving Repr, DecidableEq

/-- The relational state touched by the summary service: the `users` and
`summaries` tables plus the id generator for new summary rows. -/
structure DBState where
  users : List User
  summaries : List Summary
  nextSummaryId : Nat
deriving Repr, DecidableEq

/-- `OpenAISummaryResponse` interface from `src/types`. -/
structure OpenAISummaryResponse where
  keyPoints : List String
  fullSummary : String
  tags : List String
deriving Repr, DecidableEq

/-- The `ServiceResponse<OpenAISummaryResponse>` shape the orchestrator
receives from `openaiService.generateSummary`. -/
structure AIResponse where
  success : Bool
  data : Option OpenAISummaryResponse
  error : Option String
deriving Repr, DecidableEq

/-- `GenerateSummaryRequest` from `src/types`. -/
structure GenerateSummaryRequest where
  transcript : List TranscriptSegment
  videoMetadata : VideoMetadata
deriving Repr, DecidableEq

/-- `SummaryData` from `src/types`: the formatted API view of a summary row. -/
structure SummaryData where
  id : Nat
  title : String
  keyPoints : List String
  fullSummary : String
  tags : List String
  status : SummaryStatus
  videoMetadata : VideoMetadata
  transcript : Option (List TranscriptSegment)
  transcriptText : Option String
  createdAt : Nat
  saved : Bool
deriving Repr, DecidableEq

/-- JavaScript array `join(sep)`. -/
def joinSep (sep : String) : List String → String
  | [] => ""
  | [x] => x
  | x :: y :: xs => x ++ sep ++ joinSep sep (y :: xs)

/-- `SummaryService.formatTranscriptText`: flatten segments with single spaces. -/
def formatTranscriptText (transcript : List TranscriptSegment) : String :=
  joinSep " " (transcript.map (fun segment => segment.text))

/-- `SummaryService.formatSummary`: project a row to the API shape. -/
def formatSummary (s : Summary) : SummaryData :=
  { id := s.id
    title := s.title
    keyPoints := s.keyPoints
    fullSummary := s.fullSummary
    tags := s.tags
    status := s.status
    videoMetadata :=
      { videoId := s.videoId
        title := s.videoTitle
        channelName := s.channelName
        duration := s.videoDuration
        url := s.videoUrl
        thumbnailUrl := s.thumbnailUrl }
    transcript := s.transcript
    transcriptText := s.transcriptText
    createdAt := s.createdAt
    saved := true }

/-- `config.credits.perSummary` (`CREDITS_PER_SUMMARY`, default `1`). -/
def costPerSummary : Int := 1

/-- `prisma.user.findUnique({ where: { id } })`. -/
def findUserById (users : List User) (userId : Nat) : Option User :=
  users.find? (fun u => u.id == userId)

/-- The `where` filter of the idempotency query in
`SummaryService.generateSummary`: summary owned by `userId`, for `videoId`,
with status `COMPLETED`. -/
def completedFor (userId : Nat) (videoId : String) (m : Summary) : Bool :=
  m.userId == userId && m.videoId == videoId && m.status == SummaryStatus.COMPLETED

/-- The provisional row inserted by `prisma.summary.create` in
`SummaryService.generateSummary` (status `PROCESSING`, empty content). -/
def pendingSummaryRow (userId : Nat) (req : GenerateSummaryRequest)
    (now sid : Nat) : Summary :=
  { id := sid
    title := req.videoMetadata.title
    keyPoints := []
    fullSummary := ""
    tags := []
    status := SummaryStatus.PROCESSING
    videoId := req.videoMetadata.videoId
    videoTitle := req.videoMetadata.title
    channelName := req.videoMetadata.channelName
    videoDuration := req.videoMetadata.duration
    videoUrl := req.videoMetadata.url
    thumbnailUrl := req.videoMetadata.thumbnailUrl
    transcript := some req.transcript
    transcriptText := some (formatTranscriptText req.transcript)
    userId := userId
    createdAt := now }

/-- JavaScript `o || default` applied to an optional string: `undefined`,
`null` and the empty string all fall through to the default. -/
def jsOrString (o : Option String) (dflt : String) : String :=
  match o with
  | some s => if s.isEmpty then dflt else s
  | none => dflt

/-- Whether the orchestrator's inner `try` treats the AI client outcome as a
failure: the client threw, or returned `success = false`, or returned no data. -/
def aiFailed : Except AppError AIResponse → Bool
  | Except.error _ => true
  | Except.ok r => !r.success || r.data.isNone

/-- The error the orchestrator re-raises after compensation: the thrown error
itself, or `new AppError(aiResult.error || "AI summary generation failed", 500)`. -/
def aiFailureError : Except AppError AIResponse → AppError
  | Except.error e => e
  | Except.ok r => { message := jsOrString r.error "AI summary generation failed", statusCode := 500 }

/-- `prisma.user.update({ data: { credits: { decrement: perSummary } } })`. -/
def debitUser (userId : Nat) (l : List User) : List User :=
  l.map (fun u => if u.id == userId then { u with credits := u.credits - costPerSummary } else u)

/-- `prisma.user.update({ data: { credits: { increment: perSummary } } })`. -/
def refundUser (userId : Nat) (l : List User) : List User :=
  l.map (fun u => if u.id == userId then { u with credits := u.credits + costPerSummary } else u)

/-- `prisma.summary.update({ where: { id }, data: { status: "FAILED" } })`. -/
def failSummaryRow (pendingId : Nat) (l : List Summary) : List Summary :=
  l.map (fun m => if m.id == pendingId then { m with status := SummaryStatus.FAILED } else m)

/-- `prisma.summary.update` writing the AI results and status `COMPLETED`. -/
def completeSummaryRow (pendingId : Nat) (d : OpenAISummaryResponse) (l : List Summary) :
    List Summary :=
  l.map (fun m =>
    if m.id == pendingId then
      { m with keyPoints := d.keyPoints, fullSummary := d.fullSummary,
               tags := d.tags, status := SummaryStatus.COMPLETED }
    else m)

/-- Observable steps of one `generateSummary` run, used to state ordering
properties (row creation, debit, AI invocation, terminal transition). -/
inductive GenEvent where
  | createdProcessing
  | debited
  | aiCall
  | completed
  | compensated
deriving Repr, DecidableEq

/-- The compensating `prisma.$transaction` of `SummaryService.generateSummary`:
flip the provisional row to `FAILED` and increment the user's credits back,
then re-raise the error. -/
def compensateAndRaise (userId pendingId : Nat) (e : AppError) (db : DBState) :
    Except AppError SummaryData × DBState × List GenEvent :=
  let db3 : DBState :=
    { db with
      summaries := failSummaryRow pendingId db.summaries
      users := refundUser userId db.users }
  (Except.error e, db3,
    [GenEvent.createdProcessing, GenEvent.debited, GenEvent.aiCall, GenEvent.compensated])

/-- `SummaryService.generateSummary` from `src/services/summary.ts`, translated
statement by statement.  `ai` is the outcome of the
`openaiService.generateSummary` call (a thrown `AppError` or a
`ServiceResponse`), `now` the row-creation timestamp.  Besides the result and
the new store, it returns the list of observable steps taken after the
read-only prefix (user load, credit check, idempotency query). -/
def generateSummary (userId : Nat) (req : GenerateSummaryRequest)
    (ai : Except AppError AIResponse) (now : Nat) (db : DBState) :
    Except AppError SummaryData × DBState × List GenEvent :=
  match findUserById db.users userId with
  | none => (Except.error { message := "User not found", statusCode := 404 }, db, [])
  | some user =>
    if user.credits < costPerSummary then
      (Except.error { message := "Insufficient credits", statusCode := 402 }, db, [])
    else
      match db.summaries.find? (completedFor userId req.videoMetadata.videoId) with
      | some existingSummary => (Except.ok (formatSummary existingSummary), db, [])
      | none =>
        let pending := pendingSummaryRow userId req now db.nextSummaryId
        let db1 : DBState :=
          { db with summaries := db.summaries ++ [pending], nextSummaryId := db.nextSummaryId + 1 }
        let db2 : DBState :=
          { db1 with users := debitUser userId db1.users }
        match ai with
        | Except.error e => compensateAndRaise userId pending.id e db2
        | Except.ok aiResult =>
          match aiResult.data, aiResult.success with
          | none, _ =>
            compensateAndRaise userId pending.id (aiFailureError (Except.ok aiResult)) db2
          | some _, false =>
            compensateAndRaise userId pending.id (aiFailureError (Except.ok aiResult)) db2
          | some d, true =>
              let db3 : DBState :=
                { db2 with summaries := completeSummaryRow pending.id d db2.summaries }
              (Except.ok (formatSummary
                  { pending with keyPoints := d.keyPoints, fullSummary := d.fullSummary,
                                 tags := d.tags, status := SummaryStatus.COMPLETED }),
               db3,
               [GenEvent.createdProcessing, GenEvent.debited, GenEvent.aiCall, GenEvent.completed])

/-- Concrete video metadata used in witness scenarios. -/
def demoMeta : VideoMetadata :=
  { videoId := "abc", title := "T", channelName := "C", duration := none,
    url := "u", thumbnailUrl := none }

/-- Concrete generation request used in witness scenarios. -/
def demoReq : GenerateSummaryRequest :=
  { transcript := [{ timestamp := "0:00", text := "hi" }], videoMetadata := demoMeta }

/-- A user with plenty of credits. -/
def demoUser : User :=
  { id := 0, email := "a@b.c", name := none, avatar := none, plan := UserPlan.FREE,
    credits := 10, supabaseId := none, emailVerified := false, lastLoginAt := none }

/-- A user with zero credits. -/
def demoUserPoor : User :=
  { demoUser with credits := 0 }

/-- A completed summary row owned by user 0 for video "abc". -/
def demoCompletedRow : Summary :=
  { id := 0, title := "T", keyPoints := ["k"], fullSummary := "S", tags := [],
    status := SummaryStatus.COMPLETED, videoId := "abc", videoTitle := "T",
    channelName := "C", videoDuration := none, videoUrl := "u", thumbnailUrl := none,
    transcript := none, transcriptText := none, userId := 0, createdAt := 0 }

/-- A successful AI client response. -/
def demoAIOk : Except AppError AIResponse :=
  Except.ok { success := true, data := some { keyPoints := ["k"], fullSummary := "S", tags := [] },
              error := none }

/-- Store with a well-funded user and no summaries. -/
def demoDB : DBState := { users := [demoUser], summaries := [], nextSummaryId := 1 }

/-- Store with a zero-credit user and no summaries. -/
def demoDBPoor : DBState := { users := [demoUserPoor], summaries := [], nextSummaryId := 1 }

/-- Store with a zero-credit user who owns a COMPLETED summary for "abc". -/
def demoDBPoorIdem : DBState :=
  { users := [demoUserPoor], summaries := [demoCompletedRow], nextSummaryId := 1 }

/-- Store with a well-funded user who owns a COMPLETED summary for "abc". -/
def demoDBIdem : DBState :=
  { users := [demoUser], summaries := [demoCompletedRow], nextSummaryId := 1 }

/-- `MAX_TRANSCRIPT_LENGTH` constant from `src/types` (routes/user.ts line 456). -/
def MAX_TRANSCRIPT_LENGTH : Nat := 50000

/-- `maxChunkLength` in `OpenAIService.chunkTranscript`:
`Math.floor(MAX_TRANSCRIPT_LENGTH / 3)`. -/
def maxChunkLength : Nat := MAX_TRANSCRIPT_LENGTH / 3

/-- `OpenAIService.formatTranscriptForAI`: each segment rendered as
`[timestamp] text`, newline-joined. -/
def formatTranscriptForAI (transcript : List TranscriptSegment) : String :=
  joinSep "\n" (transcript.map (fun segment => "[" ++ segment.timestamp ++ "] " ++ segment.text))

/-- The `for (const segment of transcript)` loop of
`OpenAIService.chunkTranscript`, with the running chunk and its accumulated
text length as explicit accumulators, followed by the final flush. -/
def chunkLoop : List TranscriptSegment → List TranscriptSegment → Nat →
    List (List TranscriptSegment)
  | [], currentChunk, _ =>
    if currentChunk.length > 0 then [currentChunk] else []
  | segment :: rest, currentChunk, currentLength =>
    if currentLength + segment.text.length > maxChunkLength && currentChunk.length > 0 then
      currentChunk :: chunkLoop rest [segment] segment.text.length
    else
      chunkLoop rest (currentChunk ++ [segment]) (currentLength + segment.text.length)

/-- `OpenAIService.chunkTranscript`. -/
def chunkTranscript (transcript : List TranscriptSegment) : List (List TranscriptSegment) :=
  chunkLoop transcript [] 0

/-- Concatenated text length of a chunk (the quantity `currentLength` tracks). -/
def chunkTextLen (c : List TranscriptSegment) : Nat :=
  (c.map (fun s => s.text.length)).sum

/-- A single transcript segment of 60000 characters: its formatted form
exceeds `MAX_TRANSCRIPT_LENGTH`, yet it can never be split across chunks. -/
def bigSegment : TranscriptSegment :=
  { timestamp := "0:00", text := String.mk (List.replicate 60000 'a') }

/-- The one-oversized-segment transcript. -/
def bigTranscript : List TranscriptSegment := [bigSegment]

/-- Minimal JSON value model for the provider's parsed payload
(`JSON.parse(responseText)` in `OpenAIService.generateSummary`). -/
inductive Json where
  | null
  | bool (b : Bool)
  | num (n : Int)
  | str (s : String)
  | arr (elems : List Json)
  | obj (fields : List (String × Json))

/-- JavaScript truthiness of a JSON value (the leading `response &&` check). -/
def jsTruthy : Json → Bool
  | Json.null => false
  | Json.bool b => b
  | Json.num n => n != 0
  | Json.str s => !s.isEmpty
  | Json.arr _ => true
  | Json.obj _ => true

/-- JavaScript property access `response.k`: `none` models `undefined`. -/
def jsonField : Json → String → Option Json
  | Json.obj fields, k => (fields.find? (fun p => p.1 == k)).map (fun p => p.2)
  | _, _ => none

/-- `typeof x === "string"` on a JSON value. -/
def isJsonString : Json → Bool
  | Json.str _ => true
  | _ => false

/-- `OpenAIService.validateSummaryResponse`, clause for clause: truthy
response, `keyPoints` a non-empty all-string array, `fullSummary` a non-empty
string, `tags` an all-string array. -/
def validateSummaryResponse (response : Json) : Bool :=
  jsTruthy response &&
  (match jsonField response "keyPoints" with
   | some (Json.arr xs) => decide (0 < xs.length) && xs.all isJsonString
   | _ => false) &&
  (match jsonField response "fullSummary" with
   | some (Json.str s) => decide (0 < s.length)
   | _ => false) &&
  (match jsonField response "tags" with
   | some (Json.arr xs) => xs.all isJsonString
   | _ => false)

/-- The string elements of a JSON array. -/
def jsonStrings (xs : List Json) : List String :=
  xs.filterMap (fun j => match j with | Json.str s => some s | _ => none)

/-- The typed view of a validated payload (the TypeScript code returns the
parsed object itself, typed as `OpenAISummaryResponse`). -/
def extractSummaryPayload (j : Json) : OpenAISummaryResponse :=
  { keyPoints := jsonStrings (match jsonField j "keyPoints" with
      | some (Json.arr xs) => xs
      | _ => [])
    fullSummary := (match jsonField j "fullSummary" with
      | some (Json.str s) => s
      | _ => "")
    tags := jsonStrings (match jsonField j "tags" with
      | some (Json.arr xs) => xs
      | _ => []) }

/-- The provider payload as seen by `OpenAIService.generateSummary` after the
chat call returns: missing content, content that fails `JSON.parse`, or
content parsing to a JSON value. -/
inductive ProviderReply where
  | empty
  | unparseable (raw : String)
  | parsed (j : Json)

/-- Lines 54-70 of `src/services/openai.ts`: reject an empty response, a
parse failure, or a structurally invalid payload; otherwise succeed with the
validated payload. -/
def openAIHandleResponse : ProviderReply → Except AppError OpenAISummaryResponse
  | ProviderReply.empty =>
    Except.error { message := "Empty response from OpenAI", statusCode := 500 }
  | ProviderReply.unparseable _ =>
    Except.error { message := "Invalid response format from AI", statusCode := 500 }
  | ProviderReply.parsed j =>
    if validateSummaryResponse j then Except.ok (extractSummaryPayload j)
    else Except.error { message := "Invalid summary response structure", statusCode := 500 }

/-- A well-formed provider payload used in witness scenarios. -/
def goodJson : Json :=
  Json.obj [("keyPoints", Json.arr [Json.str "k"]),
            ("fullSummary", Json.str "S"),
            ("tags", Json.arr [])]

/-- `RefreshTokenPayload` from `src/types`: the claims inside a refresh JWT. -/
structure RefreshTokenPayload where
  userId : Nat
  tokenId : Nat
deriving Repr, DecidableEq

/-- A refresh token string signed with the server's refresh secret; we model
only such well-signed tokens, for which `jwt.verify` recovers the payload. -/
structure SignedRefreshToken where
  payload : RefreshTokenPayload
deriving Repr, DecidableEq

/-- A row of the `refresh_tokens` table (Prisma model `RefreshToken`). -/
structure RefreshTokenRow where
  id : Nat
  token : SignedRefreshToken
  userId : Nat
  expiresAt : Nat
  revoked : Bool
deriving Repr, DecidableEq

/-- The relational state touched by the auth service, plus the generator for
new token ids (`uuidv4` in the source). -/
structure AuthState where
  users : List User
  tokens : List RefreshTokenRow
  nextTokenId : Nat
deriving Repr, DecidableEq

/-- The `LoginResponse` fields the claims are about: the user and the newly
issued refresh token. -/
structure LoginResult where
  user : User
  refreshToken : SignedRefreshToken
deriving Repr, DecidableEq

/-- `AuthService.refreshToken` from `src/services/auth.ts`: verify the token,
look it up (unrevoked, matching id and token string), reject if missing or
expired, then in one `prisma.$transaction` revoke it and create its
replacement. -/
def refreshTokenOp (t : SignedRefreshToken) (now : Nat) (s : AuthState) :
    Except AppError LoginResult × AuthState :=
  let payload := t.payload
  match s.tokens.find? (fun row => row.id == payload.tokenId && row.token == t && !row.revoked) with
  | none => (Except.error { message := "Invalid or expired refresh token", statusCode := 401 }, s)
  | some storedToken =>
    if storedToken.expiresAt < now then
      (Except.error { message := "Invalid or expired refresh token", statusCode := 401 }, s)
    else
      match findUserById s.users storedToken.userId with
      | none => (Except.error { message := "Token refresh failed", statusCode := 401 }, s)
      | some user =>
        let newToken : SignedRefreshToken :=
          { payload := { userId := storedToken.userId, tokenId := s.nextTokenId } }
        let s2 : AuthState :=
          { s with
            tokens := (s.tokens.map (fun row =>
                if row.id == storedToken.id then { row with revoked := true } else row))
              ++ [{ id := s.nextTokenId, token := newToken, userId := storedToken.userId,
                    expiresAt := now + 7 * 24 * 60 * 60 * 1000, revoked := false }],
            nextTokenId := s.nextTokenId + 1 }
        (Except.ok { user := user, refreshToken := newToken }, s2)

/-- Outcome of the `supabase.auth.signInWithPassword` call inside
`AuthService.login`: success (no error), an error result, or a thrown
exception (caught and logged by the source). -/
inductive SupabaseLoginOutcome where
  | success
  | failure
  | threw
deriving Repr, DecidableEq

/-- JavaScript `String.prototype.toLowerCase()` (character-wise lowering). -/
def jsToLowerCase (s : String) : String := String.mk (s.data.map Char.toLower)

/-- `AuthService.login` from `src/services/auth.ts`.  The supplied password is
forwarded only to the external Supabase call, whose outcome is the `sb`
parameter; the local branch sets `isValidPassword = true` whenever it was
still false ("For now, assume password is valid if user exists"). -/
def login (email password : String) (sb : SupabaseLoginOutcome) (now : Nat)
    (s : AuthState) : Except AppError LoginResult × AuthState :=
  match s.users.find? (fun u => u.email == jsToLowerCase email) with
  | none => (Except.error { message := "Invalid email or password", statusCode := 401 }, s)
  | some user =>
    let isValidPassword := user.supabaseId.isSome && sb == SupabaseLoginOutcome.success
    let isValidPassword := if !isValidPassword then true else isValidPassword
    if !isValidPassword then
      (Except.error { message := "Invalid email or password", statusCode := 401 }, s)
    else
      let s1 : AuthState :=
        { s with users := s.users.map (fun u2 =>
            if u2.id == user.id then { u2 with lastLoginAt := some now } else u2) }
      let newToken : SignedRefreshToken :=
        { payload := { userId := user.id, tokenId := s.nextTokenId } }
      let s2 : AuthState :=
        { s1 with
          tokens := s1.tokens ++ [{ id := s.nextTokenId, token := newToken, userId := user.id,
                                    expiresAt := now + 7 * 24 * 60 * 60 * 1000, revoked := false }],
          nextTokenId := s.nextTokenId + 1 }
      (Except.ok { user := user, refreshToken := newToken }, s2)

/-- `MAX_SUMMARY_HISTORY` constant from `src/types` (routes/user.ts line 457). -/
def MAX_SUMMARY_HISTORY : Nat := 100

/-- The `orderBy: { createdAt: "asc" }` ordering of the cleanup query. -/
def byCreatedAt (a b : Summary) : Prop := a.createdAt ≤ b.createdAt

instance : DecidableRel byCreatedAt := fun a b => Nat.decLe a.createdAt b.createdAt

instance : IsTotal Summary byCreatedAt := ⟨fun a b => Nat.le_total a.createdAt b.createdAt⟩

instance : IsTrans Summary byCreatedAt := ⟨fun _ _ _ hab hbc => Nat.le_trans hab hbc⟩

/-- The per-user body of `SummaryService.cleanupOldSummaries`: when a user has
more than `MAX_SUMMARY_HISTORY` summaries, select the oldest
`count - MAX_SUMMARY_HISTORY` of them (by ascending `createdAt`) and delete
exactly those rows by id (`deleteMany({ where: { id: { in: ... } } })`). -/
def cleanupUserSummaries (summaries : List Summary) : List Summary :=
  if summaries.length > MAX_SUMMARY_HISTORY then
    let sorted := List.insertionSort byCreatedAt summaries
    let summariesToDelete := sorted.take (summaries.length - MAX_SUMMARY_HISTORY)
    let delIds := summariesToDelete.map (fun m => m.id)
    summaries.filter (fun m => !delIds.contains m.id)
  else
    summaries

/-- JavaScript truthiness of an optional string (`!x` on `string | undefined`):
present means defined and non-empty. -/
def jsPresentStr (o : Option String) : Bool :=
  match o with
  | some s => !s.isEmpty
  | none => false

/-- `CreateSummaryData & { id?: string }`-shaped input of
`SummaryService.saveSummary`; every field optional as in the source. -/
structure SaveSummaryData where
  id : Option Nat
  title : Option String
  keyPoints : Option (List String)
  fullSummary : Option String
  tags : Option (List String)
  videoId : Option String
  videoTitle : Option String
  channelName : Option String
  videoDuration : Option String
  videoUrl : Option String
  thumbnailUrl : Option String
  transcript : Option (List TranscriptSegment)
  transcriptText : Option String
deriving Repr, DecidableEq

/-- `SummaryService.saveSummary`: with an id, update the owned row (`??`
fallbacks); without an id, require video metadata (JS truthiness) and create
the row directly in status `COMPLETED`. -/
def saveSummary (userId : Nat) (d : SaveSummaryData) (now : Nat) (db : DBState) :
    Except AppError SummaryData × DBState :=
  match d.id with
  | some sid =>
    match db.summaries.find? (fun m => m.id == sid && m.userId == userId) with
    | none => (Except.error { message := "Summary not found", statusCode := 404 }, db)
    | some existing =>
      let updated : Summary :=
        { existing with
          title := d.title.getD existing.title
          keyPoints := d.keyPoints.getD existing.keyPoints
          fullSummary := d.fullSummary.getD existing.fullSummary
          tags := d.tags.getD existing.tags }
      (Except.ok (formatSummary updated),
       { db with summaries := db.summaries.map (fun m => if m.id == sid then updated else m) })
  | none =>
    if !jsPresentStr d.videoId || !jsPresentStr d.videoTitle || !jsPresentStr d.channelName then
      (Except.error { message := "Missing required video metadata", statusCode := 400 }, db)
    else
      let vid := d.videoId.getD ""
      let vtitle := d.videoTitle.getD ""
      let row : Summary :=
        { id := db.nextSummaryId
          title := jsOrString d.title vtitle
          keyPoints := d.keyPoints.getD []
          fullSummary := d.fullSummary.getD ""
          tags := d.tags.getD []
          status := SummaryStatus.COMPLETED
          videoId := vid
          videoTitle := vtitle
          channelName := d.channelName.getD ""
          videoDuration := d.videoDuration
          videoUrl := jsOrString d.videoUrl ("https://youtube.com/watch?v=" ++ vid)
          thumbnailUrl := d.thumbnailUrl
          transcript := d.transcript
          transcriptText := d.transcriptText
          userId := userId
          createdAt := now }
      (Except.ok (formatSummary row),
       { db with summaries := db.summaries ++ [row], nextSummaryId := db.nextSummaryId + 1 })

/-- A store with one token row for the rotation witness. -/
def demoAuthToken : SignedRefreshToken := { payload := { userId := 0, tokenId := 5 } }

/-- Auth store holding `demoUser` and one live refresh token. -/
def demoAuthState : AuthState :=
  { users := [demoUser],
    tokens := [{ id := 5, token := demoAuthToken, userId := 0, expiresAt := 1000, revoked := false }],
    nextTokenId := 6 }

/-- 101 summaries with distinct ids and increasing creation times. -/
def demoManySummaries : List Summary :=
  (List.range 101).map (fun i =>
    { id := i, title := "", keyPoints := [], fullSummary := "", tags := [],
      status := SummaryStatus.COMPLETED, videoId := "", videoTitle := "", channelName := "",
      videoDuration := none, videoUrl := "", thumbnailUrl := none, transcript := none,
      transcriptText := none, userId := 0, createdAt := i })

/-- Result of rotating `demoAuthToken` once at time 500. -/
def demoRotationResult : LoginResult :=
  { user := demoUser, refreshToken := { payload := { userId := 0, tokenId := 6 } } }

/-- Auth store after the first rotation: old token revoked, replacement live. -/
def demoRotatedState : AuthState :=
  { users := [demoUser],
    tokens := [{ id := 5, token := demoAuthToken, userId := 0, expiresAt := 1000, revoked := true },
               { id := 6, token := { payload := { userId := 0, tokenId := 6 } }, userId := 0,
                 expiresAt := 604800500, revoked := false }],
    nextTokenId := 7 }

/-- Concrete create-path input for the save witness. -/
def demoSaveData : SaveSummaryData :=
  { id := none, title := some "T", keyPoints := some ["k"], fullSummary := some "S",
    tags := some [], videoId := some "abc", videoTitle := some "T",
    channelName := some "C", videoDuration := none, videoUrl := none,
    thumbnailUrl := none, transcript := none, transcriptText := none }

theorem list_map_id_on {α : Type} {l : List α} {f : α → α} (h : ∀ a ∈ l, f a = a) :
    l.map f = l := by
  induction l with
  | nil => rfl
  | cons a t ih =>
    simp only [List.map_cons, h a (List.mem_cons_self a t),
      ih (fun x hx => h x (List.mem_cons_of_mem a hx))]

theorem summaries_map_fresh {l : List Summary} {nid : Nat} (h : ∀ m ∈ l, m.id ≠ nid)
    (f : Summary → Summary) :
    (l.map fun m => if m.id == nid then f m else m) = l :=
  list_map_id_on (fun m hm => by simp [h m hm])

/-- `findUnique` on users commutes with a credits-only rewrite of the table. -/
theorem findUserById_map_credits (l : List User) (userId : Nat) (g : Int → Int) :
    findUserById (l.map fun u => if u.id == userId then { u with credits := g u.credits } else u)
        userId
      = (findUserById l userId).map
          (fun u => if u.id == userId then { u with credits := g u.credits } else u) := by
  unfold findUserById
  rw [List.find?_map]
  have hp : ((fun u : User => u.id == userId) ∘ fun u =>
      if u.id == userId then { u with credits := g u.credits } else u) =
      (fun u : User => u.id == userId) := by
    funext u
    by_cases h : u.id = userId
    · simp [h]
    · simp [h]
  rw [hp]

/-- Evaluation of a full `generateSummary` run on the success path. -/
theorem generateSummary_success_run
    (userId : Nat) (req : GenerateSummaryRequest) (r : AIResponse) (d : OpenAISummaryResponse)
    (now : Nat) (db : DBState) (user : User)
    (hu : findUserById db.users userId = some user)
    (hc : costPerSummary ≤ user.credits)
    (hnone : db.summaries.find? (completedFor userId req.videoMetadata.videoId) = none)
    (hd : r.data = some d) (hs : r.success = true) :
    generateSummary userId req (Except.ok r) now db =
      (Except.ok (formatSummary
          { pendingSummaryRow userId req now db.nextSummaryId with
            keyPoints := d.keyPoints, fullSummary := d.fullSummary, tags := d.tags,
            status := SummaryStatus.COMPLETED }),
       { users := debitUser userId db.users,
         summaries := completeSummaryRow db.nextSummaryId d
            (db.summaries ++ [pendingSummaryRow userId req now db.nextSummaryId]),
         nextSummaryId := db.nextSummaryId + 1 },
       [GenEvent.createdProcessing, GenEvent.debited, GenEvent.aiCall, GenEvent.completed]) := by
  have hclt : ¬ user.credits < costPerSummary := not_lt.mpr hc
  simp only [generateSummary, hu, if_neg hclt, hnone, hd, hs, pendingSummaryRow]

/-- Evaluation of a full `generateSummary` run on the compensation path. -/
theorem generateSummary_failure_run
    (userId : Nat) (req : GenerateSummaryRequest) (ai : Except AppError AIResponse)
    (now : Nat) (db : DBState) (user : User)
    (hu : findUserById db.users userId = some user)
    (hc : costPerSummary ≤ user.credits)
    (hnone : db.summaries.find? (completedFor userId req.videoMetadata.videoId) = none)
    (hfail : aiFailed ai = true) :
    generateSummary userId req ai now db =
      (Except.error (aiFailureError ai),
       { users := refundUser userId (debitUser userId db.users),
         summaries := failSummaryRow db.nextSummaryId
            (db.summaries ++ [pendingSummaryRow userId req now db.nextSummaryId]),
         nextSummaryId := db.nextSummaryId + 1 },
       [GenEvent.createdProcessing, GenEvent.debited, GenEvent.aiCall, GenEvent.compensated]) := by
  have hclt : ¬ user.credits < costPerSummary := not_lt.mpr hc
  cases ai with
  | error e =>
    simp only [generateSummary, hu, if_neg hclt, hnone, compensateAndRaise,
      aiFailureError, pendingSummaryRow]
  | ok r =>
    cases hr : r.data with
    | none =>
      simp only [generateSummary, hu, if_neg hclt, hnone, hr, compensateAndRaise,
        aiFailureError, pendingSummaryRow]
    | some d0 =>
      have hsf : r.success = false := by
        have h2 : (!r.success || r.data.isNone) = true := hfail
        rw [hr] at h2
        simpa using h2
      simp only [generateSummary, hu, if_neg hclt, hnone, hr, hsf, compensateAndRaise,
        aiFailureError, pendingSummaryRow]

theorem user_id_of_find {l : List User} {userId : Nat} {user : User}
    (hu : findUserById l userId = some user) : user.id = userId := by
  unfold findUserById at hu
  have h := List.find?_some hu
  simpa using h

/-- C1: for a user with sufficient credits and no prior COMPLETED summary for
the requested videoId, a successful AI call leaves the user with exactly
`cost_per_summary` fewer credits and exactly one COMPLETED summary row for
that (user, videoId), and the debit happens after the PROCESSING row is
created and before the AI call. -/
theorem generateSummary_charge_once
    (userId : Nat) (req : GenerateSummaryRequest) (r : AIResponse) (d : OpenAISummaryResponse)
    (now : Nat) (db : DBState) (user : User)
    (hu : findUserById db.users userId = some user)
    (hc : costPerSummary ≤ user.credits)
    (hnone : db.summaries.find? (completedFor userId req.videoMetadata.videoId) = none)
    (hfresh : ∀ m ∈ db.summaries, m.id ≠ db.nextSummaryId)
    (hd : r.data = some d) (hs : r.success = true) :
    (∃ sd, (generateSummary userId req (Except.ok r) now db).1 = Except.ok sd) ∧
    findUserById (generateSummary userId req (Except.ok r) now db).2.1.users userId =
      some { user with credits := user.credits - costPerSummary } ∧
    ((generateSummary userId req (Except.ok r) now db).2.1.summaries.countP
      (completedFor userId req.videoMetadata.videoId)) = 1 ∧
    (generateSummary userId req (Except.ok r) now db).2.2 =
      [GenEvent.createdProcessing, GenEvent.debited, GenEvent.aiCall, GenEvent.completed] := by
  rw [generateSummary_success_run userId req r d now db user hu hc hnone hd hs]
  refine ⟨⟨_, rfl⟩, ?_, ?_, rfl⟩
  · unfold debitUser
    rw [findUserById_map_credits db.users userId (fun c => c - costPerSummary), hu]
    simp [user_id_of_find hu]
  · unfold completeSummaryRow
    rw [List.map_append, summaries_map_fresh hfresh]
    rw [List.countP_append]
    rw [List.countP_eq_zero.mpr (by
      intro m hm
      exact List.find?_eq_none.mp hnone m hm)]
    simp [pendingSummaryRow, completedFor]

/-- C1 witness: a funded user, an empty store, and a healthy AI response. -/
theorem generateSummary_charge_once_witness :
    findUserById demoDB.users 0 = some demoUser ∧
    costPerSummary ≤ demoUser.credits ∧
    demoDB.summaries.find? (completedFor 0 demoReq.videoMetadata.videoId) = none ∧
    (∀ m ∈ demoDB.summaries, m.id ≠ demoDB.nextSummaryId) ∧
    ((∃ sd, (generateSummary 0 demoReq demoAIOk 2 demoDB).1 = Except.ok sd) ∧
     findUserById (generateSummary 0 demoReq demoAIOk 2 demoDB).2.1.users 0 =
       some { demoUser with credits := demoUser.credits - costPerSummary } ∧
     ((generateSummary 0 demoReq demoAIOk 2 demoDB).2.1.summaries.countP
       (completedFor 0 demoReq.videoMetadata.videoId)) = 1 ∧
     (generateSummary 0 demoReq demoAIOk 2 demoDB).2.2 =
       [GenEvent.createdProcessing, GenEvent.debited, GenEvent.aiCall, GenEvent.completed]) :=
  ⟨rfl, by decide, rfl, by decide,
   generateSummary_charge_once 0 demoReq
     { success := true, data := some { keyPoints := ["k"], fullSummary := "S", tags := [] },
       error := none }
     { keyPoints := ["k"], fullSummary := "S", tags := [] }
     2 demoDB demoUser rfl (by decide) rfl (by decide) rfl rfl⟩

/-- C2: when the AI call fails (throw, no data, or unsuccessful response), the
compensating transaction flips the provisional row to FAILED and restores the
user's credits, leaving the whole users table at its pre-call value, and the
original failure is re-raised. -/
theorem generateSummary_compensation
    (userId : Nat) (req : GenerateSummaryRequest) (ai : Except AppError AIResponse)
    (now : Nat) (db : DBState) (user : User)
    (hu : findUserById db.users userId = some user)
    (hc : costPerSummary ≤ user.credits)
    (hnone : db.summaries.find? (completedFor userId req.videoMetadata.videoId) = none)
    (hfresh : ∀ m ∈ db.summaries, m.id ≠ db.nextSummaryId)
    (hfail : aiFailed ai = true) :
    (generateSummary userId req ai now db).1 = Except.error (aiFailureError ai) ∧
    (generateSummary userId req ai now db).2.1.users = db.users ∧
    (generateSummary userId req ai now db).2.1.summaries =
      db.summaries ++ [{ pendingSummaryRow userId req now db.nextSummaryId with
                         status := SummaryStatus.FAILED }] ∧
    (generateSummary userId req ai now db).2.2 =
      [GenEvent.createdProcessing, GenEvent.debited, GenEvent.aiCall, GenEvent.compensated] := by
  rw [generateSummary_failure_run userId req ai now db user hu hc hnone hfail]
  refine ⟨rfl, ?_, ?_, rfl⟩
  · unfold refundUser debitUser
    rw [List.map_map]
    apply list_map_id_on
    intro u _
    obtain ⟨uid, uemail, uname, uavatar, uplan, ucredits, usid, uver, ulast⟩ := u
    by_cases h : uid = userId
    · subst h
      simp [Int.sub_add_cancel]
    · simp [h]
  · unfold failSummaryRow
    rw [List.map_append, summaries_map_fresh hfresh]
    simp [pendingSummaryRow]

/-- C2 witness: a funded user, an empty store, and a throwing AI client. -/
theorem generateSummary_compensation_witness :
    findUserById demoDB.users 0 = some demoUser ∧
    costPerSummary ≤ demoUser.credits ∧
    demoDB.summaries.find? (completedFor 0 demoReq.videoMetadata.videoId) = none ∧
    (∀ m ∈ demoDB.summaries, m.id ≠ demoDB.nextSummaryId) ∧
    aiFailed (Except.error { message := "boom", statusCode := 500 }) = true ∧
    ((generateSummary 0 demoReq (Except.error { message := "boom", statusCode := 500 }) 2 demoDB).1 =
       Except.error (aiFailureError (Except.error { message := "boom", statusCode := 500 })) ∧
     (generateSummary 0 demoReq (Except.error { message := "boom", statusCode := 500 }) 2 demoDB).2.1.users =
       demoDB.users ∧
     (generateSummary 0 demoReq (Except.error { message := "boom", statusCode := 500 }) 2 demoDB).2.1.summaries =
       demoDB.summaries ++ [{ pendingSummaryRow 0 demoReq 2 demoDB.nextSummaryId with
                              status := SummaryStatus.FAILED }] ∧
     (generateSummary 0 demoReq (Except.error { message := "boom", statusCode := 500 }) 2 demoDB).2.2 =
       [GenEvent.createdProcessing, GenEvent.debited, GenEvent.aiCall, GenEvent.compensated]) :=
  ⟨rfl, by decide, rfl, by decide, rfl,
   generateSummary_compensation 0 demoReq (Except.error { message := "boom", statusCode := 500 })
     2 demoDB demoUser rfl (by decide) rfl (by decide) rfl⟩

/-- C3 counterexample: a user with zero credits who already owns a COMPLETED
summary for "abc" does not get the cached summary back — the call fails with
`Insufficient credits` (402) because the credit check runs before the
idempotency query. -/
theorem generateSummary_idempotency_needs_credits_cex :
    completedFor 0 demoReq.videoMetadata.videoId demoCompletedRow = true ∧
    demoCompletedRow ∈ demoDBPoorIdem.summaries ∧
    demoUserPoor.credits < costPerSummary ∧
    (generateSummary 0 demoReq demoAIOk 1 demoDBPoorIdem).1 =
      Except.error { message := "Insufficient credits", statusCode := 402 } ∧
    (generateSummary 0 demoReq demoAIOk 1 demoDBPoorIdem).1 ≠
      Except.ok (formatSummary demoCompletedRow) := by
  refine ⟨rfl, by simp [demoDBPoorIdem], by decide, rfl, ?_⟩
  rw [show (generateSummary 0 demoReq demoAIOk 1 demoDBPoorIdem).1 =
      Except.error { message := "Insufficient credits", statusCode := 402 } from rfl]
  simp

/-- C3 (amended): for a user whose credits are at least `cost_per_summary` and
who owns a COMPLETED summary for the requested videoId, a second call returns
that summary's content and leaves the entire store — credits included —
unchanged. -/
theorem generateSummary_idempotent_replay
    (userId : Nat) (req : GenerateSummaryRequest) (ai : Except AppError AIResponse)
    (now : Nat) (db : DBState) (user : User) (ex : Summary)
    (hu : findUserById db.users userId = some user)
    (hc : costPerSummary ≤ user.credits)
    (hfound : db.summaries.find? (completedFor userId req.videoMetadata.videoId) = some ex) :
    generateSummary userId req ai now db = (Except.ok (formatSummary ex), db, []) := by
  have hclt : ¬ user.credits < costPerSummary := not_lt.mpr hc
  simp only [generateSummary, hu, if_neg hclt, hfound]

/-- C3 witness: a funded user whose store already has the COMPLETED row. -/
theorem generateSummary_idempotent_replay_witness :
    findUserById demoDBIdem.users 0 = some demoUser ∧
    costPerSummary ≤ demoUser.credits ∧
    demoDBIdem.summaries.find? (completedFor 0 demoReq.videoMetadata.videoId) =
      some demoCompletedRow ∧
    generateSummary 0 demoReq demoAIOk 1 demoDBIdem =
      (Except.ok (formatSummary demoCompletedRow), demoDBIdem, []) :=
  ⟨rfl, by decide, rfl,
   generateSummary_idempotent_replay 0 demoReq demoAIOk 1 demoDBIdem demoUser demoCompletedRow
     rfl (by decide) rfl⟩

/-- C4: a user whose credits are below `cost_per_summary` gets an
`Insufficient credits` error (402) and the store is completely untouched. -/
theorem generateSummary_insufficient_credits
    (userId : Nat) (req : GenerateSummaryRequest) (ai : Except AppError AIResponse)
    (now : Nat) (db : DBState) (user : User)
    (hu : findUserById db.users userId = some user)
    (hlt : user.credits < costPerSummary) :
    generateSummary userId req ai now db =
      (Except.error { message := "Insufficient credits", statusCode := 402 }, db, []) := by
  simp only [generateSummary, hu, if_pos hlt]

/-- C4 witness: the zero-credit user on an empty store. -/
theorem generateSummary_insufficient_credits_witness :
    findUserById demoDBPoor.users 0 = some demoUserPoor ∧
    demoUserPoor.credits < costPerSummary ∧
    generateSummary 0 demoReq demoAIOk 1 demoDBPoor =
      (Except.error { message := "Insufficient credits", statusCode := 402 }, demoDBPoor, []) :=
  ⟨rfl, by decide,
   generateSummary_insufficient_credits 0 demoReq demoAIOk 1 demoDBPoor demoUserPoor
     rfl (by decide)⟩

theorem chunkLoop_join (rest : List TranscriptSegment) :
    ∀ (cur : List TranscriptSegment) (len : Nat), (chunkLoop rest cur len).flatten = cur ++ rest := by
  induction rest with
  | nil =>
    intro cur len
    by_cases h : cur.length > 0
    · simp [chunkLoop, h]
    · have hnil : cur = [] := List.length_eq_zero.mp (Nat.eq_zero_of_not_pos h)
      simp [chunkLoop, h, hnil]
  | cons seg rest ih =>
    intro cur len
    by_cases h : (len + seg.text.length > maxChunkLength && cur.length > 0) = true
    · simp [chunkLoop, h, ih]
    · simp [chunkLoop, h, ih]

theorem chunkTextLen_append (a b : List TranscriptSegment) :
    chunkTextLen (a ++ b) = chunkTextLen a + chunkTextLen b := by
  simp [chunkTextLen]

theorem chunkLoop_chunks (rest : List TranscriptSegment) :
    ∀ (cur : List TranscriptSegment) (len : Nat),
      len = chunkTextLen cur →
      (2 ≤ cur.length → chunkTextLen cur ≤ maxChunkLength) →
      ∀ c ∈ chunkLoop rest cur len,
        c ≠ [] ∧ (2 ≤ c.length → chunkTextLen c ≤ maxChunkLength) := by
  induction rest with
  | nil =>
    intro cur len hlen hinv c hc
    by_cases h : cur.length > 0
    · simp only [chunkLoop, h, if_true] at hc
      rw [List.mem_singleton] at hc
      subst hc
      refine ⟨fun hnil => ?_, hinv⟩
      rw [hnil] at h
      simp at h
    · simp [chunkLoop, h] at hc
  | cons seg rest ih =>
    intro cur len hlen hinv c hc
    by_cases h : (len + seg.text.length > maxChunkLength && cur.length > 0) = true
    · simp only [chunkLoop, h, if_true, List.mem_cons] at hc
      rcases hc with hc | hc
      · subst hc
        refine ⟨fun hnil => ?_, hinv⟩
        rw [hnil] at h
        simp at h
      · refine ih [seg] seg.text.length (by simp [chunkTextLen]) (by intro h2; simp at h2) c hc
    · simp only [chunkLoop, h, if_false] at hc
      have hor : ¬ (maxChunkLength < len + seg.text.length) ∨ ¬ (0 < cur.length) := by
        rcases Bool.and_eq_false_iff.mp (Bool.not_eq_true _ |>.mp h) with h1 | h1
        · left
          simpa using h1
        · right
          simpa using h1
      refine ih (cur ++ [seg]) (len + seg.text.length)
        (by rw [chunkTextLen_append, hlen]; simp [chunkTextLen]) ?_ c hc
      intro h2
      rcases hor with h1 | h1
      · rw [chunkTextLen_append]
        rw [hlen] at h1
        have : chunkTextLen [seg] = seg.text.length := by simp [chunkTextLen]
        omega
      · have hnil : cur = [] := List.length_eq_zero.mp (Nat.eq_zero_of_not_pos h1)
        subst hnil
        simp at h2

theorem bigSegment_text_length : bigSegment.text.length = 60000 := by
  show (List.replicate 60000 'a').length = 60000
  exact List.length_replicate 60000 'a'

theorem bigTranscript_formatted_length :
    MAX_TRANSCRIPT_LENGTH < (formatTranscriptForAI bigTranscript).length := by
  show MAX_TRANSCRIPT_LENGTH < (joinSep "\n"
    (bigTranscript.map (fun segment => "[" ++ segment.timestamp ++ "] " ++ segment.text))).length
  rw [show bigTranscript.map (fun segment => "[" ++ segment.timestamp ++ "] " ++ segment.text)
      = ["[" ++ bigSegment.timestamp ++ "] " ++ bigSegment.text] from rfl]
  rw [show joinSep "\n" ["[" ++ bigSegment.timestamp ++ "] " ++ bigSegment.text]
      = "[" ++ bigSegment.timestamp ++ "] " ++ bigSegment.text from rfl]
  rw [String.length_append, String.length_append, String.length_append,
    bigSegment_text_length]
  decide

/-- C5 counterexample: a transcript consisting of one 60000-character segment
has formatted length above `MAX_TRANSCRIPT_LENGTH`, yet `chunkTranscript`
produces a chunk whose concatenated text length exceeds `threshold/3` — the
greedy loop cannot split a single segment, so the bound fails. -/
theorem chunkTranscript_bound_cex :
    MAX_TRANSCRIPT_LENGTH < (formatTranscriptForAI bigTranscript).length ∧
    ∃ c ∈ chunkTranscript bigTranscript, ¬ chunkTextLen c ≤ maxChunkLength := by
  have hsingle : ∀ seg : TranscriptSegment, chunkTranscript [seg] = [[seg]] := by
    intro seg
    simp [chunkTranscript, chunkLoop]
  have hchunks : chunkTranscript bigTranscript = [bigTranscript] := hsingle bigSegment
  refine ⟨bigTranscript_formatted_length,
    bigTranscript, by rw [hchunks]; exact List.mem_singleton.mpr rfl, ?_⟩
  have hsum : ∀ s : TranscriptSegment, chunkTextLen [s] = s.text.length := fun s => by
    simp [chunkTextLen]
  rw [show bigTranscript = [bigSegment] from rfl, hsum bigSegment, bigSegment_text_length]
  decide

/-- C5 (amended): for every transcript whose formatted length exceeds the
threshold, `chunkTranscript` is a contiguous order-preserving partition into
non-empty chunks that never split a segment; every chunk holding at least two
segments keeps its concatenated text length within `threshold/3`, and any
chunk exceeding that bound is a single segment whose own text already
exceeds it. -/
theorem chunkTranscript_partition (t : List TranscriptSegment)
    (_hbig : MAX_TRANSCRIPT_LENGTH < (formatTranscriptForAI t).length) :
    (chunkTranscript t).flatten = t ∧
    (∀ c ∈ chunkTranscript t, c ≠ []) ∧
    (∀ c ∈ chunkTranscript t, 2 ≤ c.length → chunkTextLen c ≤ maxChunkLength) ∧
    (∀ c ∈ chunkTranscript t, maxChunkLength < chunkTextLen c →
      ∃ s, c = [s] ∧ maxChunkLength < s.text.length) := by
  have hrun := chunkLoop_chunks t [] 0 (by simp [chunkTextLen]) (by intro h2; simp at h2)
  refine ⟨?_, fun c hc => (hrun c hc).1, fun c hc => (hrun c hc).2, ?_⟩
  · rw [chunkTranscript, chunkLoop_join]
    rfl
  · intro c hc hover
    obtain ⟨hne, hbound⟩ := hrun c hc
    match c, hne with
    | [s], _ =>
      refine ⟨s, rfl, ?_⟩
      have : chunkTextLen [s] = s.text.length := by simp [chunkTextLen]
      omega
    | s1 :: s2 :: rest, _ =>
      exfalso
      have h2 : 2 ≤ (s1 :: s2 :: rest).length := by simp
      exact absurd (hbound h2) (not_le.mpr hover)

/-- C5 witness: the partition properties instantiated at the oversized
one-segment transcript, whose formatted length exceeds the threshold. -/
theorem chunkTranscript_partition_witness :
    MAX_TRANSCRIPT_LENGTH < (formatTranscriptForAI bigTranscript).length ∧
    ((chunkTranscript bigTranscript).flatten = bigTranscript ∧
     (∀ c ∈ chunkTranscript bigTranscript, c ≠ []) ∧
     (∀ c ∈ chunkTranscript bigTranscript, 2 ≤ c.length → chunkTextLen c ≤ maxChunkLength) ∧
     (∀ c ∈ chunkTranscript bigTranscript, maxChunkLength < chunkTextLen c →
       ∃ s, c = [s] ∧ maxChunkLength < s.text.length)) :=
  ⟨bigTranscript_formatted_length,
   chunkTranscript_partition bigTranscript bigTranscript_formatted_length⟩

theorem jsonStrings_length_of_all {xs : List Json} (h : xs.all isJsonString = true) :
    (jsonStrings xs).length = xs.length := by
  induction xs with
  | nil => rfl
  | cons a t ih =>
    rw [List.all_cons, Bool.and_eq_true] at h
    cases a with
    | str s =>
      have hstep : jsonStrings (Json.str s :: t) = s :: jsonStrings t := rfl
      rw [hstep, List.length_cons, List.length_cons, ih h.2]
    | null => simp [isJsonString] at h
    | bool b => simp [isJsonString] at h
    | num n => simp [isJsonString] at h
    | arr es => simp [isJsonString] at h
    | obj fs => simp [isJsonString] at h

/-- C6: the AI client's response handling succeeds if and only if the
provider payload parsed and satisfies the structural predicate; and a
successful result is never partially valid (its keyPoints are non-empty and
its fullSummary is a non-empty string). -/
theorem openAIHandleResponse_valid_iff (r : ProviderReply) :
    ((∃ d, openAIHandleResponse r = Except.ok d) ↔
      (∃ j, r = ProviderReply.parsed j ∧ validateSummaryResponse j = true)) ∧
    (∀ d, openAIHandleResponse r = Except.ok d →
      d.keyPoints ≠ [] ∧ d.fullSummary ≠ "") := by
  cases r with
  | empty =>
    refine ⟨⟨fun ⟨d, hd⟩ => by simp [openAIHandleResponse] at hd, fun ⟨j, hj, _⟩ => by simp at hj⟩,
      fun d hd => by simp [openAIHandleResponse] at hd⟩
  | unparseable raw =>
    refine ⟨⟨fun ⟨d, hd⟩ => by simp [openAIHandleResponse] at hd, fun ⟨j, hj, _⟩ => by simp at hj⟩,
      fun d hd => by simp [openAIHandleResponse] at hd⟩
  | parsed j =>
    by_cases hv : validateSummaryResponse j = true
    · constructor
      · exact ⟨fun _ => ⟨j, rfl, hv⟩,
          fun _ => ⟨extractSummaryPayload j, by simp [openAIHandleResponse, hv]⟩⟩
      · intro d hd
        rw [openAIHandleResponse, if_pos hv] at hd
        cases hd
        have hv2 := hv
        unfold validateSummaryResponse at hv2
        rw [Bool.and_eq_true, Bool.and_eq_true, Bool.and_eq_true] at hv2
        obtain ⟨⟨⟨_, hkp⟩, hfs⟩, _⟩ := hv2
        constructor
        · cases hkpf : jsonField j "keyPoints" with
          | none => rw [hkpf] at hkp; simp at hkp
          | some v =>
            cases v with
            | arr xs =>
              rw [hkpf] at hkp
              rw [Bool.and_eq_true, decide_eq_true_iff] at hkp
              obtain ⟨hpos, hall⟩ := hkp
              intro hnil
              have hlen : (jsonStrings xs).length = xs.length :=
                jsonStrings_length_of_all hall
              rw [show (extractSummaryPayload j).keyPoints
                  = jsonStrings xs by simp [extractSummaryPayload, hkpf]] at hnil
              rw [hnil] at hlen
              simp at hlen
              omega
            | null => rw [hkpf] at hkp; simp at hkp
            | bool b => rw [hkpf] at hkp; simp at hkp
            | num n => rw [hkpf] at hkp; simp at hkp
            | str s => rw [hkpf] at hkp; simp at hkp
            | obj fs => rw [hkpf] at hkp; simp at hkp
        · cases hfsf : jsonField j "fullSummary" with
          | none => rw [hfsf] at hfs; simp at hfs
          | some v =>
            cases v with
            | str s =>
              rw [hfsf] at hfs
              rw [decide_eq_true_iff] at hfs
              intro hnil
              rw [show (extractSummaryPayload j).fullSummary
                  = s by simp [extractSummaryPayload, hfsf]] at hnil
              rw [hnil] at hfs
              simp at hfs
            | null => rw [hfsf] at hfs; simp at hfs
            | bool b => rw [hfsf] at hfs; simp at hfs
            | num n => rw [hfsf] at hfs; simp at hfs
            | arr xs => rw [hfsf] at hfs; simp at hfs
            | obj fs => rw [hfsf] at hfs; simp at hfs
    · constructor
      · refine ⟨fun ⟨d, hd⟩ => ?_, fun ⟨j2, hj2, hv2⟩ => ?_⟩
        · rw [openAIHandleResponse, if_neg hv] at hd
          cases hd
        · cases hj2
          exact absurd hv2 hv
      · intro d hd
        rw [openAIHandleResponse, if_neg hv] at hd
        cases hd

/-- C6 witness: a concrete well-formed payload is accepted, and its extracted
result satisfies the structural predicate. -/
theorem openAIHandleResponse_valid_iff_witness :
    (∃ j, ProviderReply.parsed goodJson = ProviderReply.parsed j ∧
      validateSummaryResponse j = true) ∧
    (∃ d, openAIHandleResponse (ProviderReply.parsed goodJson) = Except.ok d) ∧
    ((extractSummaryPayload goodJson).keyPoints ≠ [] ∧
     (extractSummaryPayload goodJson).fullSummary ≠ "") :=
  ⟨⟨goodJson, rfl, by decide⟩,
   (openAIHandleResponse_valid_iff (ProviderReply.parsed goodJson)).1.mpr
     ⟨goodJson, rfl, by decide⟩,
   (openAIHandleResponse_valid_iff (ProviderReply.parsed goodJson)).2
     (extractSummaryPayload goodJson) rfl⟩

/-- C7: once a refresh token has been redeemed successfully (which revokes it
and stores a fresh replacement in the same transaction), presenting the same
token string again always fails, at any later time, leaving the store
untouched. -/
theorem refreshToken_single_use
    (t : SignedRefreshToken) (now now2 : Nat) (s : AuthState) (res : LoginResult) (s2 : AuthState)
    (hfresh : ∀ row ∈ s.tokens, row.id < s.nextTokenId)
    (h1 : refreshTokenOp t now s = (Except.ok res, s2)) :
    refreshTokenOp t now2 s2 =
      (Except.error { message := "Invalid or expired refresh token", statusCode := 401 }, s2) := by
  cases hf : s.tokens.find? (fun row => row.id == t.payload.tokenId && row.token == t && !row.revoked) with
  | none =>
    simp [refreshTokenOp, hf] at h1
  | some stored =>
    simp only [refreshTokenOp, hf] at h1
    by_cases hexp : stored.expiresAt < now
    · rw [if_pos hexp] at h1
      simp at h1
    · rw [if_neg hexp] at h1
      cases hu : findUserById s.users stored.userId with
      | none =>
        rw [hu] at h1
        simp at h1
      | some user =>
        rw [hu] at h1
        simp only [Prod.mk.injEq] at h1
        obtain ⟨_, hstate⟩ := h1
        have hpred := List.find?_some hf
        have hmem := List.mem_of_find?_eq_some hf
        rw [Bool.and_eq_true, Bool.and_eq_true] at hpred
        obtain ⟨⟨hid, _⟩, _⟩ := hpred
        have hideq : stored.id = t.payload.tokenId := by simpa using hid
        have hidlt : stored.id < s.nextTokenId := hfresh stored hmem
        have hnone : s2.tokens.find?
            (fun row => row.id == t.payload.tokenId && row.token == t && !row.revoked) = none := by
          rw [← hstate]
          rw [List.find?_eq_none]
          intro row hrow
          rw [List.mem_append] at hrow
          rcases hrow with hrow | hrow
          · obtain ⟨orig, horigmem, horigeq⟩ := List.mem_map.mp hrow
            by_cases hsame : orig.id = stored.id
            · rw [← horigeq]
              simp [hsame]
            · have hne : orig.id ≠ t.payload.tokenId := by rw [← hideq]; exact hsame
              rw [← horigeq]
              simp [hsame, hne]
          · rw [List.mem_singleton] at hrow
            subst hrow
            have hne : s.nextTokenId ≠ t.payload.tokenId := by omega
            simp [hne]
        simp only [refreshTokenOp, hnone]

/-- C7 witness: a concrete store where the first redemption succeeds and the
replay of the same token string fails. -/
theorem refreshToken_single_use_witness :
    (∀ row ∈ demoAuthState.tokens, row.id < demoAuthState.nextTokenId) ∧
    refreshTokenOp demoAuthToken 500 demoAuthState =
      (Except.ok demoRotationResult, demoRotatedState) ∧
    refreshTokenOp demoAuthToken 600 demoRotatedState =
      (Except.error { message := "Invalid or expired refresh token", statusCode := 401 },
       demoRotatedState) :=
  ⟨by decide, rfl,
   refreshToken_single_use demoAuthToken 500 600 demoAuthState demoRotationResult
     demoRotatedState (by decide) rfl⟩

/-- C9: once a user row with the given email exists, login succeeds and issues
tokens for every supplied password and every outcome of the federated check —
the stored password hash is never consulted. -/
theorem login_accepts_any_password
    (email password : String) (sb : SupabaseLoginOutcome) (now : Nat) (s : AuthState) (user : User)
    (hu : s.users.find? (fun u => u.email == jsToLowerCase email) = some user) :
    (login email password sb now s).1 =
      Except.ok { user := user,
                  refreshToken := { payload := { userId := user.id, tokenId := s.nextTokenId } } } ∧
    (∀ p2 : String, login email password sb now s = login email p2 sb now s) := by
  constructor
  · cases hv : user.supabaseId.isSome && (sb == SupabaseLoginOutcome.success) with
    | false => simp [login, hu, hv]
    | true => simp [login, hu, hv]
  · intro p2
    rfl

/-- C9 witness: the demo user logs in with an arbitrary password while the
federated check reports an error. -/
theorem login_accepts_any_password_witness :
    demoAuthState.users.find? (fun u => u.email == jsToLowerCase "A@b.c") = some demoUser ∧
    ((login "A@b.c" "wrong-password" SupabaseLoginOutcome.failure 9 demoAuthState).1 =
       Except.ok { user := demoUser,
                   refreshToken := { payload := { userId := demoUser.id,
                                                  tokenId := demoAuthState.nextTokenId } } } ∧
     (∀ p2 : String, login "A@b.c" "wrong-password" SupabaseLoginOutcome.failure 9 demoAuthState =
        login "A@b.c" p2 SupabaseLoginOutcome.failure 9 demoAuthState)) :=
  ⟨by decide,
   login_accepts_any_password "A@b.c" "wrong-password" SupabaseLoginOutcome.failure 9
     demoAuthState demoUser (by decide)⟩

/-- C10: the create path of `saveSummary` (no id, required video metadata
present) returns a new row created directly in status COMPLETED, appends
exactly that row, and leaves the users table — credits included — untouched. -/
theorem saveSummary_create_completed_unbilled
    (userId : Nat) (d : SaveSummaryData) (now : Nat) (db : DBState)
    (hid : d.id = none)
    (hvid : jsPresentStr d.videoId = true)
    (hvt : jsPresentStr d.videoTitle = true)
    (hch : jsPresentStr d.channelName = true) :
    (saveSummary userId d now db).2.users = db.users ∧
    (∃ row, (saveSummary userId d now db).1 = Except.ok (formatSummary row) ∧
      (saveSummary userId d now db).2.summaries = db.summaries ++ [row] ∧
      row.status = SummaryStatus.COMPLETED ∧ row.userId = userId) := by
  simp only [saveSummary, hid, hvid, hvt, hch, Bool.not_true, Bool.or_self, Bool.false_or,
    Bool.or_false, if_false]
  exact ⟨rfl, ⟨_, rfl, rfl, rfl, rfl⟩⟩

/-- C10 witness: saving a concrete user-authored summary for a funded user. -/
theorem saveSummary_create_completed_unbilled_witness :
    demoSaveData.id = none ∧
    jsPresentStr demoSaveData.videoId = true ∧
    jsPresentStr demoSaveData.videoTitle = true ∧
    jsPresentStr demoSaveData.channelName = true ∧
    ((saveSummary 0 demoSaveData 3 demoDB).2.users = demoDB.users ∧
     (∃ row, (saveSummary 0 demoSaveData 3 demoDB).1 = Except.ok (formatSummary row) ∧
       (saveSummary 0 demoSaveData 3 demoDB).2.summaries = demoDB.summaries ++ [row] ∧
       row.status = SummaryStatus.COMPLETED ∧ row.userId = 0)) :=
  ⟨rfl, by decide, by decide, by decide,
   saveSummary_create_completed_unbilled 0 demoSaveData 3 demoDB rfl (by decide) (by decide)
     (by decide)⟩

/-- C8: after cleanup, a user holding more than `MAX_SUMMARY_HISTORY`
summaries (with distinct row ids) retains exactly `MAX_SUMMARY_HISTORY` of
them, every evicted summary being at least as old as every retained one;
users at or below the cap are untouched. -/
theorem cleanupOldSummaries_retention (l : List Summary)
    (hnodup : (l.map Summary.id).Nodup) :
    (l.length ≤ MAX_SUMMARY_HISTORY → cleanupUserSummaries l = l) ∧
    (MAX_SUMMARY_HISTORY < l.length →
      (cleanupUserSummaries l).length = MAX_SUMMARY_HISTORY ∧
      ∀ kept ∈ cleanupUserSummaries l, ∀ m ∈ l, m ∉ cleanupUserSummaries l →
        m.createdAt ≤ kept.createdAt) := by
  constructor
  · intro hle
    unfold cleanupUserSummaries
    rw [if_neg (by omega)]
  · intro hgt
    have hperm : List.Perm (List.insertionSort byCreatedAt l) l :=
      List.perm_insertionSort byCreatedAt l
    set sorted := List.insertionSort byCreatedAt l with hsdef
    set k := l.length - MAX_SUMMARY_HISTORY with hkdef
    set delIds := (sorted.take k).map (fun m => m.id) with hdidef
    set P : Summary → Bool := (fun m => !delIds.contains m.id) with hPdef
    have hcleanup : cleanupUserSummaries l = l.filter P := by
      unfold cleanupUserSummaries
      rw [if_pos hgt]
    have hsplit : sorted.take k ++ sorted.drop k = sorted := List.take_append_drop k sorted
    have hsortnodup : (sorted.map Summary.id).Nodup :=
      (hperm.map Summary.id).nodup_iff.mpr hnodup
    have hdisj : List.Disjoint ((sorted.take k).map Summary.id)
        ((sorted.drop k).map Summary.id) := by
      rw [← hsplit, List.map_append] at hsortnodup
      exact (List.nodup_append.mp hsortnodup).2.2
    have hdelFalse : ∀ x ∈ sorted.take k, P x = false := by
      intro x hx
      have hxid : x.id ∈ delIds := List.mem_map_of_mem (fun m => m.id) hx
      simp [hPdef, hxid]
    have hkeepTrue : ∀ x ∈ sorted.drop k, P x = true := by
      intro x hx
      have hxid : x.id ∈ (sorted.drop k).map Summary.id :=
        List.mem_map_of_mem Summary.id hx
      have hnotin : x.id ∉ delIds := fun hmem => hdisj hmem hxid
      simp [hPdef, hnotin]
    have hfilter_sorted : sorted.filter P = sorted.drop k := by
      conv_lhs => rw [← hsplit]
      rw [List.filter_append]
      rw [List.filter_eq_nil_iff.mpr (fun a ha => by rw [hdelFalse a ha]; exact Bool.false_ne_true)]
      rw [List.filter_eq_self.mpr hkeepTrue]
      exact List.nil_append _
    have hpermfilter : List.Perm (l.filter P) (sorted.drop k) := by
      rw [← hfilter_sorted]
      exact (hperm.filter P).symm
    constructor
    · rw [hcleanup, hpermfilter.length_eq, List.length_drop, hperm.length_eq]
      omega
    · intro kept hkept m hm hmnot
      rw [hcleanup] at hkept hmnot
      have hkept2 : kept ∈ sorted.drop k := hpermfilter.mem_iff.mp hkept
      have hmfalse : P m = false := by
        cases hcase : P m with
        | false => rfl
        | true => exact absurd (List.mem_filter.mpr ⟨hm, hcase⟩) hmnot
      have hmid : m.id ∈ delIds := by
        by_contra hmem
        simp [hPdef, hmem] at hmfalse
      have hmsorted : m ∈ sorted := hperm.mem_iff.mpr hm
      have hmtoDel : m ∈ sorted.take k := by
        rw [← hsplit] at hmsorted
        rcases List.mem_append.mp hmsorted with h | h
        · exact h
        · exact absurd (List.mem_map_of_mem Summary.id h) (fun h1 => hdisj hmid h1)
      have hsortedPW : List.Sorted byCreatedAt sorted := List.sorted_insertionSort byCreatedAt l
      rw [← hsplit] at hsortedPW
      exact (List.pairwise_append.mp hsortedPW).2.2 m hmtoDel kept hkept2

/-- C8 witness: a user with 101 distinct summaries keeps exactly 100 of them. -/
theorem cleanupOldSummaries_retention_witness :
    (demoManySummaries.map Summary.id).Nodup ∧
    MAX_SUMMARY_HISTORY < demoManySummaries.length ∧
    (cleanupUserSummaries demoManySummaries).length = MAX_SUMMARY_HISTORY := by
  have hnodup : (demoManySummaries.map Summary.id).Nodup := by
    rw [show demoManySummaries.map Summary.id = List.range 101 from rfl]
    exact List.nodup_range 101
  have hlen : MAX_SUMMARY_HISTORY < demoManySummaries.length := by
    rw [show demoManySummaries.length = 101 from rfl]
    decide
  exact ⟨hnodup, hlen, ((cleanupOldSummaries_retention demoManySummaries hnodup).2 hlen).1⟩
